import Mathlib

/-!
Shallow embedding of the real-time presence & chat broadcaster of
`src/server.js` (the socket.io section, lines 220-282).

Mapping from the source:
* `chatMessages` (line 23) — `ServerState.chatMessages : List ChatMessage`.
* `onlineUsers : Map` (line 24) — `ServerState.onlineUsers`, an insertion-ordered
  association list, with `mapSet` / `mapGet` / `mapDelete` modelling
  `Map.set` / `Map.get` / `Map.delete`.
* the set of transport-connected sockets (managed by socket.io itself) —
  `ServerState.connected`; `socket.emit` targets the sender only,
  `socket.broadcast.emit` targets every connected socket except the sender,
  `io.emit` targets every connected socket.
* `Date.now()` / `new Date()` — an explicit clock value `now : Nat` passed
  into the event step.
* event handlers `joinChat` (225-237), `sendMessage` (240-263),
  `disconnect` (266-273), `typing` (276-281) — the functions of the same
  names below, each returning the new state together with the list of
  `(recipient socket id, outbound event)` pairs emitted.
-/

/-- Presence record stored in `onlineUsers` (line 227):
`{ username, userId }`. -/
structure Presence where
  username : String
  userId : Option Nat
deriving Repr, DecidableEq

/-- `messageData` record built by the `sendMessage` handler (lines 242-249). -/
structure ChatMessage where
  id : Nat
  message : String
  sender : String
  userId : Option Nat
  timestamp : Nat
  socketId : Nat
deriving Repr, DecidableEq

/-- Server state: transport-connected sockets, the `onlineUsers` map and the
`chatMessages` log. -/
structure ServerState where
  connected : List Nat
  onlineUsers : List (Nat × Presence)
  chatMessages : List ChatMessage
deriving Repr, DecidableEq

/-- `onlineUsers.set(k, v)` (line 227): overwrite in place if the key is
present (JS `Map` keeps insertion order on update), else append. -/
def mapSet (m : List (Nat × Presence)) (k : Nat) (v : Presence) :
    List (Nat × Presence) :=
  if m.any (fun p => p.1 == k) then
    m.map (fun p => if p.1 == k then (k, v) else p)
  else
    m ++ [(k, v)]

/-- `onlineUsers.get(k)` (lines 241, 267). -/
def mapGet (m : List (Nat × Presence)) (k : Nat) : Option Presence :=
  (m.find? (fun p => p.1 == k)).map Prod.snd

/-- `onlineUsers.delete(k)` (line 270). -/
def mapDelete (m : List (Nat × Presence)) (k : Nat) : List (Nat × Presence) :=
  m.filter (fun p => p.1 != k)

/-- Outbound socket.io events emitted by the broadcaster. -/
inductive OutEvent where
  | recentMessages (msgs : List ChatMessage)
  | userJoined (username : String)
  | message (m : ChatMessage)
  | userLeft (username : String)
  | userTyping (username : String) (isTyping : Bool)
deriving Repr, DecidableEq

/-- JS string truthiness as used in `userData.name || 'Guest'` (line 226):
a missing name and the empty string are both falsy. -/
def jsStringOr (s : Option String) (dflt : String) : String :=
  match s with
  | some v => if v = "" then dflt else v
  | none => dflt

/-- `array.slice(-n)` for `n > 0` (lines 230, 256): the last `n` elements
(the whole array if it is shorter than `n`). -/
def sliceLast (l : List ChatMessage) (n : Nat) : List ChatMessage :=
  l.drop (l.length - n)

/-- The log update of the `sendMessage` handler (lines 252-257): push, then
`chatMessages = chatMessages.slice(-100)` whenever the length exceeds 100. -/
def appendMessage (log : List ChatMessage) (m : ChatMessage) : List ChatMessage :=
  let log2 := log ++ [m]
  if log2.length > 100 then sliceLast log2 100 else log2

/-- The `messageData` object constructed by `sendMessage` (lines 241-249):
`Date.now()` and `new Date()` are the clock value `now`. -/
def mkMessage (st : ServerState) (sid : Nat) (text : String) (now : Nat) :
    ChatMessage :=
  let user := mapGet st.onlineUsers sid
  { id := now
    message := text
    sender := match user with | some u => u.username | none => "Guest"
    userId := match user with | some u => u.userId | none => none
    timestamp := now
    socketId := sid }

/-- `io.on('connection')` (line 221): socket.io adds the socket to the set of
connected sockets; no chat state changes. -/
def connect (st : ServerState) (sid : Nat) : ServerState :=
  { st with connected := st.connected ++ [sid] }

/-- The `joinChat` handler (lines 225-237): register the sender in
`onlineUsers`, emit `recentMessages` (the last 10 log entries) to the sender,
and broadcast `userJoined` to every other connected socket. -/
def joinChat (st : ServerState) (sid : Nat) (name : Option String)
    (userId : Option Nat) : ServerState × List (Nat × OutEvent) :=
  let username := jsStringOr name "Guest"
  let users := mapSet st.onlineUsers sid ⟨username, userId⟩
  let outs := (sid, OutEvent.recentMessages (sliceLast st.chatMessages 10)) ::
    (st.connected.filter (fun c => c ≠ sid)).map
      (fun c => (c, OutEvent.userJoined username))
  ({ st with onlineUsers := users }, outs)

/-- The `sendMessage` handler (lines 240-263): build `messageData`, append it
to the capped log, and `io.emit` it to every connected socket. -/
def sendMessage (st : ServerState) (sid : Nat) (text : String) (now : Nat) :
    ServerState × List (Nat × OutEvent) :=
  let messageData := mkMessage st sid text now
  ({ st with chatMessages := appendMessage st.chatMessages messageData },
   st.connected.map (fun c => (c, OutEvent.message messageData)))

/-- The `disconnect` handler (lines 266-273): if the socket is registered,
broadcast `userLeft` to the others and delete its registry entry; otherwise do
nothing. In both cases socket.io removes the socket from the connected set. -/
def disconnect (st : ServerState) (sid : Nat) :
    ServerState × List (Nat × OutEvent) :=
  match mapGet st.onlineUsers sid with
  | some user =>
      ({ st with connected := st.connected.filter (fun c => c ≠ sid),
                 onlineUsers := mapDelete st.onlineUsers sid },
       (st.connected.filter (fun c => c ≠ sid)).map
         (fun c => (c, OutEvent.userLeft user.username)))
  | none =>
      ({ st with connected := st.connected.filter (fun c => c ≠ sid) }, [])

/-- The `typing` handler (lines 276-281): broadcast `userTyping` (with the
payload's username, not the registered one) to every other connected socket. -/
def typing (st : ServerState) (sid : Nat) (username : String)
    (isTyping : Bool) : ServerState × List (Nat × OutEvent) :=
  (st, (st.connected.filter (fun c => c ≠ sid)).map
    (fun c => (c, OutEvent.userTyping username isTyping)))

/-- Inbound socket.io events handled by the broadcaster. -/
inductive InEvent where
  | joinChat (name : Option String) (userId : Option Nat)
  | sendMessage (message : String)
  | typing (username : String) (isTyping : Bool)
  | disconnect
deriving Repr, DecidableEq

/-- One inbound event from socket `sid` handled at clock value `now`. -/
def step (st : ServerState) (sid : Nat) (now : Nat) :
    InEvent → ServerState × List (Nat × OutEvent)
  | .joinChat name userId => joinChat st sid name userId
  | .sendMessage text => sendMessage st sid text now
  | .typing username isTyping => typing st sid username isTyping
  | .disconnect => disconnect st sid

/-- Recognizer for `recentMessages` outbound events. -/
def isRecentMessages : OutEvent → Bool
  | .recentMessages _ => true
  | _ => false

/-- Recognizer for the presence notifications that are broadcast to others
only (`userJoined`, `userLeft`, `userTyping`). -/
def isPresenceEvent : OutEvent → Bool
  | .userJoined _ => true
  | .userLeft _ => true
  | .userTyping _ _ => true
  | _ => false

/-! ### Helper lemmas about the capped log -/

theorem appendMessage_eq_drop (l : List ChatMessage) (m : ChatMessage) :
    appendMessage l m = (l ++ [m]).drop ((l ++ [m]).length - 100) := by
  simp only [appendMessage, sliceLast]
  split
  · rfl
  · rename_i h
    rw [Nat.sub_eq_zero_of_le (by omega), List.drop_zero]

theorem appendMessage_length_le (l : List ChatMessage) (m : ChatMessage)
    (h : l.length ≤ 100) : (appendMessage l m).length ≤ 100 := by
  rw [appendMessage_eq_drop]
  simp only [List.length_drop, List.length_append, List.length_singleton]
  omega

theorem foldl_appendMessage (ms : List ChatMessage) :
    ∀ l : List ChatMessage, l.length ≤ 100 →
      List.foldl appendMessage l ms = (l ++ ms).drop (l.length + ms.length - 100) := by
  induction ms with
  | nil =>
      intro l hl
      simp only [List.foldl_nil, List.append_nil, List.length_nil, Nat.add_zero,
        Nat.sub_eq_zero_of_le hl, List.drop_zero]
  | cons m ms ih =>
      intro l hl
      rw [List.foldl_cons, ih (appendMessage l m) (appendMessage_length_le l m hl),
        appendMessage_eq_drop,
        ← List.drop_append_of_le_length (Nat.sub_le _ _), List.drop_drop,
        List.append_assoc, List.singleton_append]
      congr 1
      simp only [List.length_drop, List.length_append, List.length_singleton,
        List.length_cons, List.length_nil]
      omega

/-- Concrete distinct messages used as witnesses. -/
def mkMsgs (n : Nat) : List ChatMessage :=
  (List.range n).map (fun i => ⟨i, "", "", none, i, 0⟩)

/-- C1: after every sequence of sendMessage appends starting from the empty
log, the log holds at most 100 messages and equals exactly the most recently
appended 100 (or fewer) messages in append order; in particular a 101st
message evicts the oldest one, retaining messages 2 through 101. -/
theorem C1_log_capacity (ms : List ChatMessage) :
    (List.foldl appendMessage [] ms).length ≤ 100 ∧
    List.foldl appendMessage [] ms = ms.drop (ms.length - 100) ∧
    (ms.length = 101 → List.foldl appendMessage [] ms = ms.drop 1) := by
  have h := foldl_appendMessage ms [] (by simp)
  simp only [List.nil_append, List.length_nil, Nat.zero_add] at h
  refine ⟨?_, h, ?_⟩
  · rw [h, List.length_drop]
    omega
  · intro h101
    rw [h, h101]

/-- C1 witness: a concrete sequence of 101 appends keeps messages 2-101. -/
theorem C1_log_capacity_witness :
    (mkMsgs 101).length = 101 ∧
    List.foldl appendMessage [] (mkMsgs 101) = (mkMsgs 101).drop 1 :=
  ⟨by simp [mkMsgs], (C1_log_capacity (mkMsgs 101)).2.2 (by simp [mkMsgs])⟩

/-- C2: a join event produces exactly one recentMessages event, targeted at
the joiner, carrying the last min(10, length) log entries in log (append)
order; for a 15-entry log that is entries 6 through 15. -/
theorem C2_join_recent (st : ServerState) (sid : Nat) (name : Option String)
    (uid : Option Nat) :
    (joinChat st sid name uid).2.filter (fun p => isRecentMessages p.2) =
      [(sid, OutEvent.recentMessages
        (st.chatMessages.drop (st.chatMessages.length - 10)))] ∧
    (st.chatMessages.drop (st.chatMessages.length - 10)).length =
      min 10 st.chatMessages.length ∧
    ∀ l : List ChatMessage, l.length = 15 → sliceLast l 10 = l.drop 5 := by
  refine ⟨?_, ?_, ?_⟩
  · simp [joinChat, sliceLast, isRecentMessages, List.filter_map, Function.comp]
  · rw [List.length_drop]
    omega
  · intro l hl
    simp [sliceLast, hl]

/-- C2 witness: joining over a concrete 15-message log yields the last 10. -/
theorem C2_join_recent_witness :
    (mkMsgs 15).length = 15 ∧ sliceLast (mkMsgs 15) 10 = (mkMsgs 15).drop 5 :=
  ⟨by simp [mkMsgs],
   (C2_join_recent ⟨[1], [], mkMsgs 15⟩ 1 none none).2.2 (mkMsgs 15)
     (by simp [mkMsgs])⟩

/-- C3: sendMessage appends exactly one ChatMessage to the log and emits a
message event carrying exactly that ChatMessage to every connected socket,
the sender included; and across all inbound events, any emitted message
event's payload is the message just appended to the log. -/
theorem C3_sendMessage_broadcast (st : ServerState) (sid : Nat) (text : String)
    (now : Nat) :
    (sendMessage st sid text now).1.chatMessages =
      appendMessage st.chatMessages (mkMessage st sid text now) ∧
    (sendMessage st sid text now).2 =
      st.connected.map
        (fun c => (c, OutEvent.message (mkMessage st sid text now))) ∧
    (sid ∈ st.connected →
      (sid, OutEvent.message (mkMessage st sid text now)) ∈
        (sendMessage st sid text now).2) ∧
    ∀ e rcpt m, (rcpt, OutEvent.message m) ∈ (step st sid now e).2 →
      (step st sid now e).1.chatMessages = appendMessage st.chatMessages m := by
  refine ⟨rfl, rfl, ?_, ?_⟩
  · intro h
    simp only [sendMessage, List.mem_map]
    exact ⟨sid, h, rfl⟩
  · intro e rcpt m hm
    cases e with
    | joinChat name uid =>
        exfalso
        simp [step, joinChat, List.mem_map] at hm
    | sendMessage t =>
        simp only [step, sendMessage, List.mem_map, Prod.mk.injEq,
          OutEvent.message.injEq] at hm
        obtain ⟨c, -, -, rfl⟩ := hm
        rfl
    | typing u b =>
        exfalso
        simp [step, typing, List.mem_map] at hm
    | disconnect =>
        exfalso
        cases h : mapGet st.onlineUsers sid with
        | none => simp [step, disconnect, h] at hm
        | some u => simp [step, disconnect, h, List.mem_map] at hm

/-- C3 witness: a concrete send from a connected socket reaches the sender. -/
theorem C3_sendMessage_broadcast_witness :
    (1 : Nat) ∈ (⟨[1, 2], [], []⟩ : ServerState).connected ∧
    (1, OutEvent.message (mkMessage ⟨[1, 2], [], []⟩ 1 "hi" 7)) ∈
      (sendMessage (⟨[1, 2], [], []⟩ : ServerState) 1 "hi" 7).2 :=
  ⟨by decide,
   (C3_sendMessage_broadcast ⟨[1, 2], [], []⟩ 1 "hi" 7).2.2.1 (by decide)⟩

/-- C4: a sendMessage from a socket absent from the registry degrades to
sender "Guest" and user id null; the message is still appended and broadcast
to every connected socket. -/
theorem C4_unregistered_guest (st : ServerState) (sid : Nat) (text : String)
    (now : Nat) (h : mapGet st.onlineUsers sid = none) :
    mkMessage st sid text now = ⟨now, text, "Guest", none, now, sid⟩ ∧
    (sendMessage st sid text now).1.chatMessages =
      appendMessage st.chatMessages (⟨now, text, "Guest", none, now, sid⟩ :
        ChatMessage) ∧
    (sendMessage st sid text now).2 =
      st.connected.map (fun c => (c, OutEvent.message
        (⟨now, text, "Guest", none, now, sid⟩ : ChatMessage))) := by
  have hm : mkMessage st sid text now = ⟨now, text, "Guest", none, now, sid⟩ := by
    simp [mkMessage, h]
  exact ⟨hm, by simp [sendMessage, hm], by simp [sendMessage, hm]⟩

/-- C4 witness: a concrete unregistered sender gets the Guest attribution. -/
theorem C4_unregistered_guest_witness :
    mapGet (⟨[1, 2], [], []⟩ : ServerState).onlineUsers 1 = none ∧
    mkMessage ⟨[1, 2], [], []⟩ 1 "hi" 7 = ⟨7, "hi", "Guest", none, 7, 1⟩ :=
  ⟨rfl, (C4_unregistered_guest ⟨[1, 2], [], []⟩ 1 "hi" 7 rfl).1⟩

/-- Concrete state with two connected, registered sockets. -/
def stC5 : ServerState :=
  ⟨[1, 2], [(1, ⟨"A", some 4⟩), (2, ⟨"B", some 5⟩)], []⟩

/-- C5 counterexample: two distinct sendMessage events handled at the same
clock value (`Date.now()` millisecond) construct distinct ChatMessages with
the SAME id, so message ids are not fresh across distinct events. -/
theorem C5_counterexample :
    ((sendMessage (sendMessage stC5 1 "a" 5).1 2 "b" 5).1.chatMessages.map
      ChatMessage.id) = [5, 5] ∧
    ((sendMessage (sendMessage stC5 1 "a" 5).1 2 "b" 5).1.chatMessages.map
      ChatMessage.sender) = ["A", "B"] := by
  decide

/-- C5 amended: message ids are timestamp-derived (`id = Date.now()` at
construction, equal to the message timestamp); two sendMessage events handled
at distinct clock values get distinct ids, but events sharing a clock value
share an id. -/
theorem C5_ids_timestamp_derived (st1 st2 : ServerState) (sid1 sid2 : Nat)
    (t1 t2 : String) (now1 now2 : Nat) (h : now1 ≠ now2) :
    (mkMessage st1 sid1 t1 now1).id = now1 ∧
    (mkMessage st1 sid1 t1 now1).timestamp = now1 ∧
    (mkMessage st1 sid1 t1 now1).id ≠ (mkMessage st2 sid2 t2 now2).id :=
  ⟨rfl, rfl, by simpa [mkMessage] using h⟩

/-- C5 witness: two sends one millisecond apart get distinct ids. -/
theorem C5_ids_timestamp_derived_witness :
    (5 : Nat) ≠ 6 ∧ (mkMessage stC5 1 "a" 5).id ≠ (mkMessage stC5 2 "b" 6).id :=
  ⟨by decide,
   (C5_ids_timestamp_derived stC5 stC5 1 2 "a" "b" 5 6 (by decide)).2.2⟩

/-- Membership in a broadcast-to-others fan-out list. -/
theorem mem_broadcastList {c sid : Nat} {ev ev' : OutEvent} {l : List Nat}
    (h : (c, ev) ∈ (l.filter (fun x => x ≠ sid)).map (fun x => (x, ev'))) :
    c ∈ l ∧ c ≠ sid ∧ ev = ev' := by
  simp only [List.mem_map, List.mem_filter, decide_eq_true_eq,
    Prod.mk.injEq] at h
  obtain ⟨x, ⟨hx, hxs⟩, rfl, rfl⟩ := h
  exact ⟨hx, hxs, rfl⟩

/-- C6: the presence notifications userJoined, userLeft and userTyping are
never delivered to the socket that originated the triggering inbound event. -/
theorem C6_no_self_presence_echo (st : ServerState) (sid now : Nat)
    (e : InEvent) (rcpt : Nat) (ev : OutEvent)
    (hmem : (rcpt, ev) ∈ (step st sid now e).2)
    (hp : isPresenceEvent ev = true) : rcpt ≠ sid := by
  cases e with
  | joinChat name uid =>
      simp only [step, joinChat] at hmem
      rcases List.mem_cons.mp hmem with h | h
      · rw [Prod.mk.injEq] at h
        obtain ⟨-, rfl⟩ := h
        simp [isPresenceEvent] at hp
      · exact (mem_broadcastList h).2.1
  | sendMessage t =>
      simp only [step, sendMessage, List.mem_map] at hmem
      obtain ⟨c, -, h⟩ := hmem
      rw [Prod.mk.injEq] at h
      obtain ⟨-, h2⟩ := h
      rw [← h2] at hp
      simp [isPresenceEvent] at hp
  | typing u b =>
      simp only [step, typing] at hmem
      exact (mem_broadcastList hmem).2.1
  | disconnect =>
      cases hreg : mapGet st.onlineUsers sid with
      | none => simp [step, disconnect, hreg] at hmem
      | some u =>
          simp only [step, disconnect, hreg] at hmem
          exact (mem_broadcastList hmem).2.1

/-- C6 witness: a concrete typing event reaches the other socket, not the
sender. -/
theorem C6_no_self_presence_echo_witness :
    ((2, OutEvent.userTyping "A" true) ∈
        (step ⟨[1, 2], [], []⟩ 1 0 (InEvent.typing "A" true)).2 ∧
      isPresenceEvent (OutEvent.userTyping "A" true) = true) ∧
    (2 : Nat) ≠ 1 :=
  ⟨⟨by decide, by decide⟩,
   C6_no_self_presence_echo ⟨[1, 2], [], []⟩ 1 0 (InEvent.typing "A" true) 2
     (OutEvent.userTyping "A" true) (by decide) (by decide)⟩

/-- C7: disconnect of an unregistered socket emits no event and leaves the
registry and the log unchanged; disconnect of a registered socket deletes its
registry entry, leaves the log unchanged, and broadcasts userLeft with its
display name to the remaining connected sockets. -/
theorem C7_disconnect_behavior (st : ServerState) (sid : Nat) :
    (mapGet st.onlineUsers sid = none →
      (disconnect st sid).2 = [] ∧
      (disconnect st sid).1.onlineUsers = st.onlineUsers ∧
      (disconnect st sid).1.chatMessages = st.chatMessages) ∧
    (∀ u, mapGet st.onlineUsers sid = some u →
      (disconnect st sid).1.onlineUsers = mapDelete st.onlineUsers sid ∧
      (disconnect st sid).1.chatMessages = st.chatMessages ∧
      (disconnect st sid).2 = (st.connected.filter (fun c => c ≠ sid)).map
        (fun c => (c, OutEvent.userLeft u.username))) := by
  constructor
  · intro h
    simp [disconnect, h]
  · intro u h
    simp [disconnect, h]

/-- Concrete state: sockets 1 and 2 connected, only socket 1 registered. -/
def stC7 : ServerState := ⟨[1, 2], [(1, ⟨"A", some 4⟩)], []⟩

/-- C7 witness: concrete no-op disconnect and concrete registered
disconnect. -/
theorem C7_disconnect_behavior_witness :
    (mapGet (⟨[1, 2], [], []⟩ : ServerState).onlineUsers 1 = none ∧
      (disconnect (⟨[1, 2], [], []⟩ : ServerState) 1).2 = []) ∧
    (mapGet stC7.onlineUsers 1 = some ⟨"A", some 4⟩ ∧
      (disconnect stC7 1).1.onlineUsers = mapDelete stC7.onlineUsers 1 ∧
      (disconnect stC7 1).2 = (stC7.connected.filter (fun c => c ≠ 1)).map
        (fun c => (c, OutEvent.userLeft "A"))) :=
  ⟨⟨rfl, ((C7_disconnect_behavior ⟨[1, 2], [], []⟩ 1).1 rfl).1⟩,
   ⟨rfl, ((C7_disconnect_behavior stC7 1).2 ⟨"A", some 4⟩ rfl).1,
    ((C7_disconnect_behavior stC7 1).2 ⟨"A", some 4⟩ rfl).2.2⟩⟩

/-- Reachable state: sockets 1, 2 and 3 are connected, only socket 1 has
joined the chat. -/
def stC8 : ServerState :=
  (joinChat (connect (connect (connect ⟨[], [], []⟩ 1) 2) 3) 1 (some "A")
    (some 4)).1

/-- C8 counterexample: when socket 2 joins, the userJoined broadcast is
delivered to socket 3, which is connected but unregistered (it never joined
and is absent from the registry afterwards as well). -/
theorem C8_counterexample :
    (3, OutEvent.userJoined "B") ∈ (joinChat stC8 2 (some "B") (some 5)).2 ∧
    mapGet stC8.onlineUsers 3 = none ∧
    mapGet (joinChat stC8 2 (some "B") (some 5)).1.onlineUsers 3 = none := by
  decide

/-- C8 amended: the userJoined broadcast is delivered exactly to every other
currently connected socket, registered or not, and never to the joiner. -/
theorem C8_join_broadcast (st : ServerState) (sid : Nat) (name : Option String)
    (uid : Option Nat) (rcpt : Nat) :
    (rcpt, OutEvent.userJoined (jsStringOr name "Guest")) ∈
      (joinChat st sid name uid).2 ↔ rcpt ∈ st.connected ∧ rcpt ≠ sid := by
  simp [joinChat, List.mem_map, List.mem_filter, Prod.mk.injEq]

/-- C8 amended witness: the concrete unregistered socket 3 of the
counterexample state is reached exactly because it is connected. -/
theorem C8_join_broadcast_witness :
    (3, OutEvent.userJoined (jsStringOr (some "B") "Guest")) ∈
      (joinChat stC8 2 (some "B") (some 5)).2 ↔
    3 ∈ stC8.connected ∧ (3 : Nat) ≠ 2 :=
  C8_join_broadcast stC8 2 (some "B") (some 5) 3

/-- C9: reading the recent messages has no side effect and is idempotent:
a join leaves the log unchanged, every last-n view of the log is unchanged by
a join, and a second join with no intervening append receives exactly the
same recentMessages payload computed from the original log. -/
theorem C9_recent_pure (st : ServerState) (sid1 sid2 : Nat)
    (n1 n2 : Option String) (u1 u2 : Option Nat) :
    (joinChat st sid1 n1 u1).1.chatMessages = st.chatMessages ∧
    (∀ k, sliceLast (joinChat st sid1 n1 u1).1.chatMessages k =
      sliceLast st.chatMessages k) ∧
    (joinChat (joinChat st sid1 n1 u1).1 sid2 n2 u2).2.filter
        (fun p => isRecentMessages p.2) =
      [(sid2, OutEvent.recentMessages (sliceLast st.chatMessages 10))] := by
  refine ⟨rfl, fun k => rfl, ?_⟩
  simp [joinChat, isRecentMessages, List.filter_map, Function.comp]

/-- Looking up key `k` after the overwrite pass of `mapSet`. -/
theorem find?_map_replace (m : List (Nat × Presence)) (k : Nat) (v : Presence) :
    (m.map (fun p => if p.1 == k then (k, v) else p)).find?
        (fun p => p.1 == k) =
      if m.any (fun p => p.1 == k) then some (k, v) else none := by
  induction m with
  | nil => rfl
  | cons a t ih =>
      by_cases hk : (a.1 == k) = true
      · simp only [List.map_cons, if_pos hk, List.any_cons, hk, Bool.true_or,
          if_true]
        exact List.find?_cons_of_pos _ (by simp)
      · have hf : (a.1 == k) = false := by
          simpa using hk
        rw [List.map_cons, if_neg hk,
          @List.find?_cons_of_neg _ (fun q : Nat × Presence => q.1 == k) _ _ hk,
          ih]
        simp only [List.any_cons, hf, Bool.false_or]

/-- After `mapSet m k v`, looking up `k` returns `v`. -/
theorem mapGet_mapSet_self (m : List (Nat × Presence)) (k : Nat) (v : Presence) :
    mapGet (mapSet m k v) k = some v := by
  unfold mapGet mapSet
  split
  · rename_i h
    rw [find?_map_replace, if_pos h]
    rfl
  · rename_i h
    rw [List.find?_append]
    have hm : m.find? (fun p => p.1 == k) = none := by
      rw [List.find?_eq_none]
      intro x hx hpx
      exact h (List.any_eq_true.mpr ⟨x, hx, hpx⟩)
    rw [hm, Option.none_or, List.find?_cons_of_pos _ (by simp)]
    rfl

/-- The display name computed by joinChat is never the empty string. -/
theorem jsStringOr_guest_ne_empty (name : Option String) :
    jsStringOr name "Guest" ≠ "" := by
  cases name with
  | none => simp [jsStringOr]
  | some v =>
      simp only [jsStringOr]
      split
      · simp
      · assumption

/-- C10: a join whose payload name is missing or is the empty string (a falsy
value) registers the connection under display name "Guest"; no join ever
stores the empty string as the registered display name. -/
theorem C10_empty_name_guest (st : ServerState) (sid : Nat)
    (uid : Option Nat) :
    mapGet (joinChat st sid (some "") uid).1.onlineUsers sid =
      some ⟨"Guest", uid⟩ ∧
    mapGet (joinChat st sid none uid).1.onlineUsers sid =
      some ⟨"Guest", uid⟩ ∧
    (∀ name p, mapGet (joinChat st sid name uid).1.onlineUsers sid = some p →
      p.username ≠ "") := by
  refine ⟨?_, ?_, ?_⟩
  · simp [joinChat, jsStringOr, mapGet_mapSet_self]
  · simp [joinChat, jsStringOr, mapGet_mapSet_self]
  · intro name p hp
    have h : mapGet (joinChat st sid name uid).1.onlineUsers sid =
        some ⟨jsStringOr name "Guest", uid⟩ := by
      simp [joinChat, mapGet_mapSet_self]
    rw [h, Option.some.injEq] at hp
    rw [← hp]
    exact jsStringOr_guest_ne_empty name

/-- C10 witness: a concrete empty-string join stores "Guest" and the stored
name is nonempty. -/
theorem C10_empty_name_guest_witness :
    mapGet (joinChat ⟨[1], [], []⟩ 1 (some "") (some 4)).1.onlineUsers 1 =
      some ⟨"Guest", some 4⟩ ∧
    (Presence.mk "Guest" (some 4)).username ≠ "" :=
  ⟨(C10_empty_name_guest ⟨[1], [], []⟩ 1 (some 4)).1,
   (C10_empty_name_guest ⟨[1], [], []⟩ 1 (some 4)).2.2 (some "")
     ⟨"Guest", some 4⟩ (C10_empty_name_guest ⟨[1], [], []⟩ 1 (some 4)).1⟩
